import Mathlib

/-!
Shallow embedding of `src/utils/schema.py` from the Football-Stats-Reporter
repository.

The Python file defines two pydantic models (`Document`, `QueryResult`) and a
class `FootballStatsReporter` that wires an external retrieval/agent framework:
it loads or builds a vector index from a document directory, persists it,
constructs a ReAct agent holding a single query-engine tool, and exposes a
`query` method that forwards text to the agent's chat call, classifying
exceptions into user-facing messages.

External framework behaviour (document reading, index persistence, the agent's
chat call) is modelled by explicit oracles: a filesystem record `FS` and a chat
function `ChatFn`.  Filesystem side effects are recorded in an explicit
`Effect` trace.  Python exceptions are modelled with `Except`; because Python
mutates `self` in place, an escaping exception carries the reporter state at
the moment of the raise.
-/

/-- Python substring prefix test on character lists: `matchesAt sub s` is true
iff `sub` occurs at the start of `s`. -/
def matchesAt : List Char → List Char → Bool
  | [], _ => true
  | _ :: _, [] => false
  | a :: as, b :: bs => a == b && matchesAt as bs

/-- `containsFrom sub s` is true iff `sub` occurs somewhere in `s`. -/
def containsFrom (sub : List Char) : List Char → Bool
  | [] => matchesAt sub []
  | c :: cs => matchesAt sub (c :: cs) || containsFrom sub cs

/-- Python `sub in s` for strings. -/
def strContains (s sub : String) : Bool := containsFrom sub.data s.data

/-- Python `s.lower()`: lowercase every character. -/
def strLower (s : String) : String := String.mk (s.data.map Char.toLower)

/-- `class Document(BaseModel)`: content plus open-ended metadata. -/
structure Document where
  content : String
  metadata : List (String × String)
deriving DecidableEq, Repr

/-- `class QueryResult(BaseModel)`: answer plus source references. -/
structure QueryResult where
  answer : String
  source_nodes : List String
deriving DecidableEq, Repr

/-- The vector index, abstract: it is either deserialized from a persist
directory (`load_index_from_storage`) or built from a list of documents
(`VectorStoreIndex.from_documents`). -/
inductive Index where
  | loaded (persist_dir : String)
  | from_documents (documents : List Document)
deriving DecidableEq, Repr

/-- `ToolMetadata(name=..., description=...)`. -/
structure ToolMetadata where
  name : String
  description : String
deriving DecidableEq, Repr

/-- `index.as_query_engine(similarity_top_k=10)`: a query engine over an index
with a top-k setting. -/
structure QueryEngine where
  index : Index
  similarity_top_k : Nat
deriving DecidableEq, Repr

/-- A tool handed to the agent: either a `QueryEngineTool` or a `FunctionTool`.
The function of a `FunctionTool` takes the current clock reading (the value of
`datetime.datetime.now()`, rendered as a string) and the query; it may fall
through and return `none`, as Python functions return `None` implicitly. -/
inductive Tool where
  | queryEngineTool (query_engine : QueryEngine) (metadata : ToolMetadata)
  | functionTool (fn : String → String → Option String) (name : String)
      (description : String)

/-- The name of a tool, as the agent sees it. -/
def Tool.name : Tool → String
  | .queryEngineTool _ md => md.name
  | .functionTool _ n _ => n

/-- `ChatMemoryBuffer.from_defaults(token_limit=4096)` plus the conversational
history it accumulates across turns. -/
structure ChatMemoryBuffer where
  token_limit : Nat
  history : List String

/-- `ReActAgent.from_tools(...)`: tool list, verbosity, system prompt, memory. -/
structure ReActAgent where
  tools : List Tool
  verbose : Bool
  system_prompt : String
  memory : ChatMemoryBuffer

/-- The identity of an agent apart from its mutable chat history: in Python the
agent reference never changes across queries; only the memory buffer content
does. -/
def ReActAgent.sansHistory (a : ReActAgent) : List Tool × Bool × String × Nat :=
  (a.tools, a.verbose, a.system_prompt, a.memory.token_limit)

/-- The state of a `FootballStatsReporter` object: the three configuration
fields set in `__init__`, plus the `index` and `agent` attributes, which start
as `None`. -/
structure FootballStatsReporter where
  data_path : String
  index_path : String
  system_prompt : String
  index : Option Index
  agent : Option ReActAgent

/-- The filesystem oracle: `os.path.exists` and the document set produced by
`SimpleDirectoryReader(path, recursive=True).load_data()`. -/
structure FS where
  path_exists : String → Bool
  read_documents : String → List Document

/-- `os.makedirs(p, exist_ok=True)`: afterwards the path exists. -/
def FS.makedirs (fs : FS) (p : String) : FS :=
  { fs with path_exists := fun q => q == p || fs.path_exists q }

/-- Observable filesystem / framework side effects, in call order. -/
inductive Effect where
  | check_exists (p : String)
  | load_from_storage (p : String)
  | read_documents (p : String)
  | makedirs (p : String)
  | persist (p : String)
deriving DecidableEq, Repr

/-- Python exceptions raised by this code (`ValueError`) or by attribute access
on `None` (`AttributeError`). -/
inductive PyError where
  | valueError (msg : String)
  | attributeError (msg : String)
deriving DecidableEq, Repr

/-- Outcome of `self.agent.chat(query)`: a response object carrying `.response`,
or an exception whose `str(e)` is `exc_text`. -/
inductive ChatOutcome where
  | success (response : String)
  | error (exc_text : String)

/-- The external agent chat call: given the current memory history and the
query, it produces an outcome and the new memory history. -/
def ChatFn := List String → String → ChatOutcome × List String

/-- The system prompt string assigned in `__init__`. -/
def system_prompt_text : String :=
  "\n        You are a helpful AI Football Stats Reporter with access to a database of football information:\n        1. Your role is to find a particular statistic related to a football player or team and to display it as a response.\n        2. You are responsible to find reliable and trustable data from your tool to access the database and provide the requested information.\n        3. You are only supposed toanswer queries related to football statistics and no other topic or sport.\n        4. Responses will only be displayed for queries related to football.\n        "

/-- The local `custom_function` in `_create_agent`: despite the `-> str`
annotation it returns a value only when the lowercased query mentions
\"current date\"; otherwise it falls off the end, i.e. returns `None`. -/
def custom_function (now : String) (query : String) : Option String :=
  if strContains (strLower query) "current date" then
    some ("The current date and time is: " ++ now)
  else
    none

/-- `FunctionTool.from_defaults(fn=..., name=..., description=...)`. -/
def FunctionTool.from_defaults (fn : String → String → Option String)
    (name : String) (description : String) : Tool :=
  Tool.functionTool fn name description

/-- The `search_tool` built in `_create_agent`: a `QueryEngineTool` over the
reporter's index with `similarity_top_k=10`. -/
def search_tool (idx : Index) : Tool :=
  Tool.queryEngineTool
    { index := idx, similarity_top_k := 10 }
    { name := "document_search",
      description := "Get information about football statistics, matches and players from the knowledge base" }

/-- The `custom_tool` built in `_create_agent`. -/
def custom_tool : Tool :=
  FunctionTool.from_defaults custom_function "custom_tool"
    "Returns the current date and time if asked"

namespace FootballStatsReporter

/-- `_create_agent`: builds the query engine and the two tools, then
constructs the agent from `[search_tool]` only.  Accessing
`self.index.as_query_engine` with `index` still `None` would raise an
`AttributeError`. -/
def _create_agent (r : FootballStatsReporter) :
    Except PyError FootballStatsReporter :=
  match r.index with
  | none => Except.error (PyError.attributeError "as_query_engine")
  | some idx =>
      Except.ok { r with agent := some {
        tools := [search_tool idx],
        verbose := true,
        system_prompt := r.system_prompt,
        memory := { token_limit := 4096, history := [] } } }

/-- `load_index`: deserialize the persisted index from `self.index_path`. -/
def load_index (r : FootballStatsReporter) : FootballStatsReporter :=
  { r with index := some (Index.loaded r.index_path) }

/-- `save_index`: `os.makedirs(self.index_path, exist_ok=True)` then persist
the index there.  `self.index.storage_context` with `index` still `None`
would raise an `AttributeError`. -/
def save_index (fs : FS) (r : FootballStatsReporter) :
    Except PyError (FS × List Effect) :=
  let fs' := fs.makedirs r.index_path
  match r.index with
  | none => Except.error (PyError.attributeError "storage_context")
  | some _ =>
      Except.ok (fs', [Effect.makedirs r.index_path, Effect.persist r.index_path])

/-- `create_index`: read all documents recursively from `self.data_path`,
raise `ValueError` if there are none, otherwise build a fresh vector index
from the documents and persist it via `save_index`. -/
def create_index (fs : FS) (r : FootballStatsReporter) :
    Except (PyError × FootballStatsReporter)
      (FootballStatsReporter × FS × List Effect) :=
  let documents := fs.read_documents r.data_path
  if documents.isEmpty then
    Except.error (PyError.valueError "No documents found in specified path", r)
  else
    let r' := { r with index := some (Index.from_documents documents) }
    match save_index fs r' with
    | Except.error e => Except.error (e, r')
    | Except.ok (fs', effs) =>
        Except.ok (r', fs', Effect.read_documents r.data_path :: effs)

/-- `load_or_create_index`: branch on `os.path.exists(self.index_path)` —
load the persisted index if the path exists, otherwise create (and persist) a
fresh one; then build the agent. -/
def load_or_create_index (fs : FS) (r : FootballStatsReporter) :
    Except (PyError × FootballStatsReporter)
      (FootballStatsReporter × FS × List Effect) :=
  if fs.path_exists r.index_path then
    let r' := load_index r
    match _create_agent r' with
    | Except.error e => Except.error (e, r')
    | Except.ok r'' =>
        Except.ok (r'', fs,
          [Effect.check_exists r.index_path, Effect.load_from_storage r.index_path])
  else
    match create_index fs r with
    | Except.error er => Except.error er
    | Except.ok (r', fs', effs) =>
        match _create_agent r' with
        | Except.error e => Except.error (e, r')
        | Except.ok r'' =>
            Except.ok (r'', fs', Effect.check_exists r.index_path :: effs)

/-- `__init__(data_path, index_path="index")`: record configuration, set
`index` and `agent` to `None`, then run `load_or_create_index` (which also
builds the agent).  The Python default for `index_path` is the string
"index"; callers of this embedding pass it explicitly. -/
def init (fs : FS) (data_path : String) (index_path : String) :
    Except (PyError × FootballStatsReporter)
      (FootballStatsReporter × FS × List Effect) :=
  let r : FootballStatsReporter :=
    { data_path := data_path,
      index_path := index_path,
      system_prompt := system_prompt_text,
      index := none,
      agent := none }
  load_or_create_index fs r

/-- Replace the agent's chat history (the only thing `agent.chat` mutates). -/
def withHistory (r : FootballStatsReporter) (a : ReActAgent)
    (h : List String) : FootballStatsReporter :=
  { r with agent := some { a with memory := { a.memory with history := h } } }

/-- `query`: fail if the agent is not initialized; otherwise call
`self.agent.chat(query)`.  On success wrap the response text with empty
`source_nodes`; on an exception classify `str(e)` by substring match into a
user-facing message and return that as a normal answer, again with empty
`source_nodes`.  The first assignment to `error_message` is shadowed by the
`if/elif/else` chain exactly as in the source. -/
def query (chat : ChatFn) (r : FootballStatsReporter) (q : String) :
    Except (PyError × FootballStatsReporter)
      (QueryResult × FootballStatsReporter) :=
  match r.agent with
  | none => Except.error (PyError.valueError "Agent not initialized", r)
  | some a =>
      match chat a.memory.history q with
      | (ChatOutcome.success resp, h') =>
          Except.ok ({ answer := resp, source_nodes := [] }, withHistory r a h')
      | (ChatOutcome.error e, h') =>
          let error_message := "Error generating response: " ++ e
          let error_message :=
            if strContains e "model_not_found" then
              "The requested model is not available. Please try again with a different model."
            else if strContains e "authentication_error" then
              "Authentication failed. Please check your API key."
            else if strContains e "rate_limit_exceeded" then
              "Rate limit exceeded. Please try again later."
            else
              "An unexpected error occurred: " ++ e
          Except.ok ({ answer := error_message, source_nodes := [] },
            withHistory r a h')

/-- The reporter state after a call to `query`, whichever branch was taken:
in Python, `self` survives a raised exception with its state intact. -/
def query_post (chat : ChatFn) (r : FootballStatsReporter) (q : String) :
    FootballStatsReporter :=
  match FootballStatsReporter.query chat r q with
  | Except.error (_, r') => r'
  | Except.ok (_, r') => r'

end FootballStatsReporter

/-! Concrete fixtures used by the witness theorems. -/

/-- A filesystem with no persisted index and no documents. -/
def empty_fs : FS :=
  { path_exists := fun _ => false, read_documents := fun _ => [] }

/-- A filesystem on which every path exists and the document directory holds a
single document. -/
def full_fs : FS :=
  { path_exists := fun _ => true,
    read_documents := fun _ => [{ content := "doc", metadata := [] }] }

/-- A reporter whose construction has not assigned the agent. -/
def uninitialized_reporter : FootballStatsReporter :=
  { data_path := "data", index_path := "index",
    system_prompt := system_prompt_text, index := none, agent := none }

/-- The agent `_create_agent` builds over a loaded index. -/
def sample_agent : ReActAgent :=
  { tools := [search_tool (Index.loaded "index")], verbose := true,
    system_prompt := system_prompt_text,
    memory := { token_limit := 4096, history := [] } }

/-- A fully initialized reporter. -/
def ready_reporter : FootballStatsReporter :=
  { data_path := "data", index_path := "index",
    system_prompt := system_prompt_text,
    index := some (Index.loaded "index"), agent := some sample_agent }

/-- A chat oracle that answers every query successfully. -/
def silent_chat : ChatFn := fun h _ => (ChatOutcome.success "ok", h)

/-- A chat oracle that raises an exception with the given text. -/
def err_chat (e : String) : ChatFn := fun h _ => (ChatOutcome.error e, h)

/-- The agent `_create_agent` builds over a given index and system prompt. -/
def agent_over (idx : Index) (sp : String) : ReActAgent :=
  { tools := [search_tool idx], verbose := true, system_prompt := sp,
    memory := { token_limit := 4096, history := [] } }

/-! Helper lemmas shared between claims. -/

/-- The first character of an appended string is that of its nonempty left
part. -/
theorem head_data_append (s u : String) (c : Char)
    (hs : s.data.head? = some c) : (s ++ u).data.head? = some c := by
  rw [String.data_append]
  cases hsd : s.data with
  | nil => simp [hsd] at hs
  | cons x xs =>
      simp [hsd] at hs ⊢
      exact hs

/-- Two strings differ when their first characters differ, even with an
arbitrary appended tail on one side. -/
theorem ne_append_of_head_ne (s t u : String) (c : Char)
    (hs : s.data.head? = some c) (ht : t.data.head? ≠ some c) :
    t ≠ s ++ u := by
  intro h
  exact ht (h ▸ head_data_append s u c hs)

/-- On a chat exception, `query` returns the classified message from the
`if/elif/else` chain, with empty sources and the updated history. -/
theorem query_error_eq (chat : ChatFn) (r : FootballStatsReporter)
    (a : ReActAgent) (q e : String) (h' : List String)
    (hag : r.agent = some a)
    (hchat : chat a.memory.history q = (ChatOutcome.error e, h')) :
    FootballStatsReporter.query chat r q = Except.ok (
      { answer :=
          if strContains e "model_not_found" then
            "The requested model is not available. Please try again with a different model."
          else if strContains e "authentication_error" then
            "Authentication failed. Please check your API key."
          else if strContains e "rate_limit_exceeded" then
            "Rate limit exceeded. Please try again later."
          else
            "An unexpected error occurred: " ++ e,
        source_nodes := [] },
      FootballStatsReporter.withHistory r a h') := by
  simp [FootballStatsReporter.query, hag, hchat]

/-- C2: for every reporter state whose agent is unset, `query` raises
`ValueError "Agent not initialized"` and does not return a `QueryResult`. -/
theorem query_before_init (chat : ChatFn) (r : FootballStatsReporter)
    (q : String) (h : r.agent = none) :
    FootballStatsReporter.query chat r q
      = Except.error (PyError.valueError "Agent not initialized", r) ∧
    ∀ out, FootballStatsReporter.query chat r q ≠ Except.ok out := by
  have h1 : FootballStatsReporter.query chat r q
      = Except.error (PyError.valueError "Agent not initialized", r) := by
    simp [FootballStatsReporter.query, h]
  exact ⟨h1, fun out hout => by simp [h1] at hout⟩

/-- C2 witness: a concrete uninitialized reporter. -/
theorem query_before_init_witness :
    FootballStatsReporter.query silent_chat uninitialized_reporter "Who won?"
      = Except.error (PyError.valueError "Agent not initialized",
          uninitialized_reporter) :=
  (query_before_init silent_chat uninitialized_reporter "Who won?" rfl).1

/-- C6: every `QueryResult` returned by `query` — from the success branch or
the error branch — has an empty `source_nodes` list. -/
theorem query_source_nodes_empty (chat : ChatFn) (r : FootballStatsReporter)
    (q : String) (res : QueryResult) (r' : FootballStatsReporter)
    (h : FootballStatsReporter.query chat r q = Except.ok (res, r')) :
    res.source_nodes = [] := by
  cases hag : r.agent with
  | none => simp [FootballStatsReporter.query, hag] at h
  | some a =>
      cases hc : chat a.memory.history q with
      | mk outcome hist =>
          cases outcome with
          | success resp =>
              simp [FootballStatsReporter.query, hag, hc] at h
              rw [← h.1]
          | error e =>
              simp [FootballStatsReporter.query, hag, hc] at h
              rw [← h.1]

/-- C6 witness: a concrete successful query. -/
theorem query_source_nodes_empty_witness :
    ({ answer := "ok", source_nodes := [] } : QueryResult).source_nodes = [] :=
  query_source_nodes_empty silent_chat ready_reporter "q"
    { answer := "ok", source_nodes := [] }
    (FootballStatsReporter.withHistory ready_reporter sample_agent []) rfl

/-- C9: `custom_function` returns a string iff the lowercased query contains
the substring "current date"; on every other input it returns `None`. -/
theorem custom_function_behavior (now q : String) :
    ((∃ s, custom_function now q = some s)
        ↔ strContains (strLower q) "current date" = true) ∧
    (strContains (strLower q) "current date" = true →
      custom_function now q
        = some ("The current date and time is: " ++ now)) ∧
    (strContains (strLower q) "current date" = false →
      custom_function now q = none) := by
  unfold custom_function
  cases h : strContains (strLower q) "current date" <;> simp [h]

/-- C9 witness: a date query (case-insensitively) gets the date string, any
other query gets `None`. -/
theorem custom_function_behavior_witness :
    custom_function "2024-01-01" "What is the CURRENT Date?"
        = some ("The current date and time is: " ++ "2024-01-01") ∧
    custom_function "2024-01-01" "Who won the league?" = none :=
  ⟨(custom_function_behavior "2024-01-01" "What is the CURRENT Date?").2.1
      (by decide),
   (custom_function_behavior "2024-01-01" "Who won the league?").2.2
      (by decide)⟩

/-- C8: a call to `query` — whichever branch it takes — leaves the
configuration fields `data_path`, `index_path` and `system_prompt`, the
`index` reference, and the agent (apart from its chat-memory history)
unchanged. -/
theorem query_frame (chat : ChatFn) (r : FootballStatsReporter) (q : String) :
    (FootballStatsReporter.query_post chat r q).data_path = r.data_path ∧
    (FootballStatsReporter.query_post chat r q).index_path = r.index_path ∧
    (FootballStatsReporter.query_post chat r q).system_prompt
      = r.system_prompt ∧
    (FootballStatsReporter.query_post chat r q).index = r.index ∧
    Option.map ReActAgent.sansHistory
        (FootballStatsReporter.query_post chat r q).agent
      = Option.map ReActAgent.sansHistory r.agent := by
  cases hag : r.agent with
  | none =>
      simp [FootballStatsReporter.query_post, FootballStatsReporter.query, hag]
  | some a =>
      cases hc : chat a.memory.history q with
      | mk outcome hist =>
          cases outcome <;>
            simp [FootballStatsReporter.query_post, FootballStatsReporter.query,
              hag, hc, FootballStatsReporter.withHistory, ReActAgent.sansHistory]

/-- C3: constructing with no persisted index and an empty document directory
raises `ValueError "No documents found in specified path"`, and the escaping
reporter state has no agent assigned. -/
theorem init_no_documents (fs : FS) (dp ip : String)
    (hex : fs.path_exists ip = false)
    (hdocs : fs.read_documents dp = []) :
    ∃ r, FootballStatsReporter.init fs dp ip
        = Except.error
            (PyError.valueError "No documents found in specified path", r)
      ∧ r.agent = none := by
  refine ⟨{ data_path := dp, index_path := ip,
            system_prompt := system_prompt_text, index := none, agent := none },
          ?_, rfl⟩
  simp [FootballStatsReporter.init, FootballStatsReporter.load_or_create_index,
    FootballStatsReporter.create_index, hex, hdocs]

/-- C3 witness: a filesystem with no index and no documents. -/
theorem init_no_documents_witness :
    ∃ r, FootballStatsReporter.init empty_fs "data" "index"
        = Except.error
            (PyError.valueError "No documents found in specified path", r)
      ∧ r.agent = none :=
  init_no_documents empty_fs "data" "index" rfl rfl

/-- C4: `load_or_create_index` branches solely on existence of the index
path: when it exists the persisted index is loaded and no documents are read;
otherwise all documents are read from the data path, a fresh vector index is
built from them, and it is persisted at once (makedirs then persist). -/
theorem load_or_create_index_branches (fs : FS) (r : FootballStatsReporter)
    (hdocs : fs.read_documents r.data_path ≠ []) :
    (fs.path_exists r.index_path = true →
      ∃ r', FootballStatsReporter.load_or_create_index fs r
          = Except.ok (r', fs,
              [Effect.check_exists r.index_path,
               Effect.load_from_storage r.index_path])
        ∧ r'.index = some (Index.loaded r.index_path)
        ∧ Effect.read_documents r.data_path ∉
            ([Effect.check_exists r.index_path,
              Effect.load_from_storage r.index_path] : List Effect)) ∧
    (fs.path_exists r.index_path = false →
      ∃ r', FootballStatsReporter.load_or_create_index fs r
          = Except.ok (r', fs.makedirs r.index_path,
              [Effect.check_exists r.index_path,
               Effect.read_documents r.data_path,
               Effect.makedirs r.index_path,
               Effect.persist r.index_path])
        ∧ r'.index
            = some (Index.from_documents (fs.read_documents r.data_path))) := by
  constructor
  · intro hex
    refine ⟨{ r with
              index := some (Index.loaded r.index_path)
              agent := some
                (agent_over (Index.loaded r.index_path) r.system_prompt) },
            ?_, rfl, ?_⟩
    · simp [FootballStatsReporter.load_or_create_index,
        FootballStatsReporter.load_index, FootballStatsReporter._create_agent,
        agent_over, hex]
    · simp
  · intro hex
    cases hd : fs.read_documents r.data_path with
    | nil => exact absurd hd hdocs
    | cons d ds =>
        refine ⟨{ r with
                  index := some (Index.from_documents (d :: ds))
                  agent := some
                    (agent_over (Index.from_documents (d :: ds))
                      r.system_prompt) },
                ?_, by simp [hd]⟩
        simp [FootballStatsReporter.load_or_create_index,
          FootballStatsReporter.create_index, FootballStatsReporter.save_index,
          FootballStatsReporter._create_agent, agent_over, hex, hd]

/-- C4 witness: with an existing index path the load branch runs without
reading documents. -/
theorem load_or_create_index_branches_witness :
    ∃ r', FootballStatsReporter.load_or_create_index full_fs
            uninitialized_reporter
        = Except.ok (r', full_fs,
            [Effect.check_exists "index", Effect.load_from_storage "index"])
      ∧ r'.index = some (Index.loaded "index")
      ∧ Effect.read_documents "data" ∉
          ([Effect.check_exists "index",
            Effect.load_from_storage "index"] : List Effect) :=
  (load_or_create_index_branches full_fs uninitialized_reporter
      (by decide)).1 rfl

/-- C5: after `save_index` succeeds, the index path exists on the resulting
filesystem, and any fresh construction pointed at the same index path takes
the load branch of `load_or_create_index` (its trace deserializes the
persisted index and reads no documents). -/
theorem save_index_roundtrip (fs : FS) (r : FootballStatsReporter)
    (idx : Index) (hidx : r.index = some idx) :
    ∃ fs', FootballStatsReporter.save_index fs r
        = Except.ok (fs',
            [Effect.makedirs r.index_path, Effect.persist r.index_path])
      ∧ fs'.path_exists r.index_path = true
      ∧ ∀ dp, ∃ r',
          FootballStatsReporter.init fs' dp r.index_path
            = Except.ok (r', fs',
                [Effect.check_exists r.index_path,
                 Effect.load_from_storage r.index_path])
          ∧ r'.index = some (Index.loaded r.index_path)
          ∧ Effect.read_documents dp ∉
              ([Effect.check_exists r.index_path,
                Effect.load_from_storage r.index_path] : List Effect) := by
  refine ⟨fs.makedirs r.index_path, ?_, ?_, ?_⟩
  · simp [FootballStatsReporter.save_index, hidx]
  · simp [FS.makedirs]
  · intro dp
    have hex : (fs.makedirs r.index_path).path_exists r.index_path = true := by
      simp [FS.makedirs]
    refine ⟨{ data_path := dp
              index_path := r.index_path
              system_prompt := system_prompt_text
              index := some (Index.loaded r.index_path)
              agent := some
                (agent_over (Index.loaded r.index_path)
                  system_prompt_text) },
            ?_, rfl, ?_⟩
    · simp [FootballStatsReporter.init,
        FootballStatsReporter.load_or_create_index,
        FootballStatsReporter.load_index, FootballStatsReporter._create_agent,
        agent_over, hex]
    · simp

/-- C5 witness: persisting a concrete reporter's index lets a fresh
construction at the same index path load it. -/
theorem save_index_roundtrip_witness :
    ∃ fs', FootballStatsReporter.save_index empty_fs ready_reporter
        = Except.ok (fs', [Effect.makedirs "index", Effect.persist "index"])
      ∧ fs'.path_exists "index" = true
      ∧ ∀ dp, ∃ r',
          FootballStatsReporter.init fs' dp "index"
            = Except.ok (r', fs',
                [Effect.check_exists "index", Effect.load_from_storage "index"])
          ∧ r'.index = some (Index.loaded "index")
          ∧ Effect.read_documents dp ∉
              ([Effect.check_exists "index",
                Effect.load_from_storage "index"] : List Effect) :=
  save_index_roundtrip empty_fs ready_reporter (Index.loaded "index") rfl

/-- C7: the agent is built with exactly one tool, the query-engine tool named
"document_search"; the constructed `custom_tool` is not in the tool list. -/
theorem agent_single_tool (r : FootballStatsReporter) (idx : Index)
    (hidx : r.index = some idx) :
    ∃ r' a, FootballStatsReporter._create_agent r = Except.ok r'
      ∧ r'.agent = some a
      ∧ a.tools = [search_tool idx]
      ∧ a.tools.map Tool.name = ["document_search"]
      ∧ custom_tool ∉ a.tools := by
  refine ⟨{ r with agent := some (agent_over idx r.system_prompt) },
          agent_over idx r.system_prompt,
          ?_, rfl, rfl, rfl, ?_⟩
  · simp [FootballStatsReporter._create_agent, agent_over, hidx]
  · intro hmem
    simp [agent_over, custom_tool, search_tool,
      FunctionTool.from_defaults] at hmem

/-- C7 witness: the agent over a concrete loaded index. -/
theorem agent_single_tool_witness :
    ∃ r' a, FootballStatsReporter._create_agent ready_reporter = Except.ok r'
      ∧ r'.agent = some a
      ∧ a.tools = [search_tool (Index.loaded "index")]
      ∧ a.tools.map Tool.name = ["document_search"]
      ∧ custom_tool ∉ a.tools :=
  agent_single_tool ready_reporter (Index.loaded "index") rfl

/-- C1: when the agent's chat call raises, `query` returns normally, and the
answer is chosen by substring matching on the exception text: text containing
(only) "rate_limit_exceeded" gives the rate-limit message, (only)
"authentication_error" the authentication message, (only) "model_not_found"
the model message, and text containing none of them the generic message with
the exception text appended. -/
theorem query_error_classification (chat : ChatFn) (r : FootballStatsReporter)
    (a : ReActAgent) (q e : String) (h' : List String)
    (hag : r.agent = some a)
    (hchat : chat a.memory.history q = (ChatOutcome.error e, h')) :
    (∃ out, FootballStatsReporter.query chat r q = Except.ok out) ∧
    (strContains e "rate_limit_exceeded" = true →
     strContains e "authentication_error" = false →
     strContains e "model_not_found" = false →
      FootballStatsReporter.query chat r q
        = Except.ok
            ({ answer := "Rate limit exceeded. Please try again later.",
               source_nodes := [] },
             FootballStatsReporter.withHistory r a h')) ∧
    (strContains e "authentication_error" = true →
     strContains e "rate_limit_exceeded" = false →
     strContains e "model_not_found" = false →
      FootballStatsReporter.query chat r q
        = Except.ok
            ({ answer := "Authentication failed. Please check your API key.",
               source_nodes := [] },
             FootballStatsReporter.withHistory r a h')) ∧
    (strContains e "model_not_found" = true →
     strContains e "rate_limit_exceeded" = false →
     strContains e "authentication_error" = false →
      FootballStatsReporter.query chat r q
        = Except.ok
            ({ answer := "The requested model is not available. Please try again with a different model.",
               source_nodes := [] },
             FootballStatsReporter.withHistory r a h')) ∧
    (strContains e "rate_limit_exceeded" = false →
     strContains e "authentication_error" = false →
     strContains e "model_not_found" = false →
      FootballStatsReporter.query chat r q
        = Except.ok
            ({ answer := "An unexpected error occurred: " ++ e,
               source_nodes := [] },
             FootballStatsReporter.withHistory r a h')) := by
  have hq := query_error_eq chat r a q e h' hag hchat
  refine ⟨⟨_, hq⟩, ?_, ?_, ?_, ?_⟩ <;>
    intro h1 h2 h3 <;> rw [hq] <;> simp [h1, h2, h3]

/-- C1 witness: a simulated rate-limit exception yields the rate-limit
message as a normal return. -/
theorem query_error_classification_witness :
    FootballStatsReporter.query (err_chat "rate_limit_exceeded")
        ready_reporter "Who won?"
      = Except.ok
          ({ answer := "Rate limit exceeded. Please try again later.",
             source_nodes := [] },
           FootballStatsReporter.withHistory ready_reporter sample_agent []) :=
  (query_error_classification (err_chat "rate_limit_exceeded") ready_reporter
      sample_agent "Who won?" "rate_limit_exceeded" [] rfl rfl).2.1
    (by decide) (by decide) (by decide)

/-- The classified message never equals the initially assigned
`"Error generating response: " ++ e`: every branch of the chain reassigns
it. -/
theorem classified_ne_initial (e : String) :
    (if strContains e "model_not_found" then
       "The requested model is not available. Please try again with a different model."
     else if strContains e "authentication_error" then
       "Authentication failed. Please check your API key."
     else if strContains e "rate_limit_exceeded" then
       "Rate limit exceeded. Please try again later."
     else
       "An unexpected error occurred: " ++ e)
      ≠ "Error generating response: " ++ e := by
  have hE : ("Error generating response: ").data.head? = some 'E' := by decide
  split
  · exact ne_append_of_head_ne _ _ _ 'E' hE (by decide)
  · split
    · exact ne_append_of_head_ne _ _ _ 'E' hE (by decide)
    · split
      · exact ne_append_of_head_ne _ _ _ 'E' hE (by decide)
      · refine ne_append_of_head_ne _ _ _ 'E' hE ?_
        rw [head_data_append "An unexpected error occurred: " e 'A' (by decide)]
        decide

/-- C10: the error classification is order-dependent — "model_not_found"
beats "authentication_error", which beats "rate_limit_exceeded" — and the
initially assigned "Error generating response: ..." message is dead: it is
never the returned answer. -/
theorem query_error_precedence (chat : ChatFn) (r : FootballStatsReporter)
    (a : ReActAgent) (q e : String) (h' : List String)
    (hag : r.agent = some a)
    (hchat : chat a.memory.history q = (ChatOutcome.error e, h')) :
    (strContains e "model_not_found" = true →
      FootballStatsReporter.query chat r q
        = Except.ok
            ({ answer := "The requested model is not available. Please try again with a different model.",
               source_nodes := [] },
             FootballStatsReporter.withHistory r a h')) ∧
    (strContains e "model_not_found" = false →
     strContains e "authentication_error" = true →
      FootballStatsReporter.query chat r q
        = Except.ok
            ({ answer := "Authentication failed. Please check your API key.",
               source_nodes := [] },
             FootballStatsReporter.withHistory r a h')) ∧
    (strContains e "model_not_found" = false →
     strContains e "authentication_error" = false →
     strContains e "rate_limit_exceeded" = true →
      FootballStatsReporter.query chat r q
        = Except.ok
            ({ answer := "Rate limit exceeded. Please try again later.",
               source_nodes := [] },
             FootballStatsReporter.withHistory r a h')) ∧
    (∀ res r', FootballStatsReporter.query chat r q = Except.ok (res, r') →
      res.answer ≠ "Error generating response: " ++ e) := by
  have hq := query_error_eq chat r a q e h' hag hchat
  refine ⟨?_, ?_, ?_, ?_⟩
  · intro h1; rw [hq]; simp [h1]
  · intro h1 h2; rw [hq]; simp [h1, h2]
  · intro h1 h2 h3; rw [hq]; simp [h1, h2, h3]
  · intro res r' hres
    rw [hq] at hres
    simp only [Except.ok.injEq, Prod.mk.injEq] at hres
    rw [← hres.1]
    exact classified_ne_initial e

/-- C10 witness: an exception text containing both "model_not_found" and
"rate_limit_exceeded" gets the model message. -/
theorem query_error_precedence_witness :
    FootballStatsReporter.query
        (err_chat "model_not_found rate_limit_exceeded") ready_reporter "Who?"
      = Except.ok
          ({ answer := "The requested model is not available. Please try again with a different model.",
             source_nodes := [] },
           FootballStatsReporter.withHistory ready_reporter sample_agent []) :=
  (query_error_precedence (err_chat "model_not_found rate_limit_exceeded")
      ready_reporter sample_agent "Who?"
      "model_not_found rate_limit_exceeded" [] rfl rfl).1 (by decide)
